import Mathlib

/-!
Verification model of the `pei` supervisor (bnferguson/pei).

Shallow embedding of the code under review:
  * `src/privilege.go`      — credential gate (`dropPrivileges`, `elevatePrivileges`)
  * `src/main_test.go`      — the `Daemon` variant (`startService`, `monitorService`,
                              `serviceManager`, `shutdownServices`, `handleIPCRequest`,
                              status accessors)
  * `src/service_logger.go` — output capture classification (`logServiceOutput`,
                              `isStructuredJSON`, `extractLogLevel`, `parseLogLevel`)
  * `src/unnamed/part_004`  — the flag-consulting `logServiceOutput` variant

Conventions of the embedding:
  * Go machine state touched by syscalls is passed explicitly; each fallible
    external call (setreuid, user lookup, pipe creation, cmd.Start, ...) takes a
    Boolean success flag; a failed call leaves the modelled state unchanged.
  * Go maps keyed by service name become association lists; Go pointer values
    (`*ServiceStatus`) become indices into an explicit heap, so that sharing and
    aliasing of status records is represented faithfully.
  * `slog.Level` is an integer in Go; it is modelled as `Int` with the slog
    constants (Debug = -4, Info = 0, Warn = 4, Error = 8).
-/

namespace Pei

/-! ## Data model (`src/main_test.go`, `Service`, `RestartPolicy`) -/

/-- Restart policy, `RestartPolicy` in the Go source (`always`/`on-failure`/`never`). -/
inductive RestartPolicy where
  | always
  | onFailure
  | never
deriving DecidableEq, Repr

/-- The service descriptor (`type Service struct` in `src/main_test.go`).
Fields that the modelled control flow never reads (working dir, environment,
`depends_on`, stdout/stderr paths, `requires_root`) are omitted.
`jsonLogs` corresponds to the `json_logs` key read by the
`src/unnamed/part_004` variant of the output capture (`s.service.JSONLogs`);
the `Service` struct in `src/main_test.go` does not declare this field. -/
structure Service where
  name : String
  command : List String
  user : String
  group : String
  restart : RestartPolicy
  maxRestarts : Nat
  restartDelay : Nat
  interval : Nat
  oneshot : Bool
  jsonLogs : Bool
deriving DecidableEq, Repr

/-! ## Credential gate (`src/privilege.go`) -/

/-- Process credentials: real, effective and saved uid and gid. -/
structure Creds where
  ruid : Nat
  euid : Nat
  suid : Nat
  rgid : Nat
  egid : Nat
  sgid : Nat
deriving DecidableEq, Repr

/-- Successful `setreuid(r, e)`: sets real and effective uid.  The Go code
always passes both arguments (never -1), and whenever the real uid is set the
kernel also sets the saved set-user-id to the new effective uid. -/
def setreuid (r e : Nat) (c : Creds) : Creds :=
  { c with ruid := r, euid := e, suid := e }

/-- Successful `setregid(r, e)`: symmetric to `setreuid` for gids. -/
def setregid (r e : Nat) (c : Creds) : Creds :=
  { c with rgid := r, egid := e, sgid := e }

/-- Outcome of a credential-gate operation. -/
inductive CredResult where
  | ok
  | lookupErr
  | setuidErr
  | setgidErr
  | setgidRestoreErr
deriving DecidableEq, Repr

/-- `dropPrivileges(appUser, appGroup)` from `src/privilege.go:31-56`.
`lookupOk` is the outcome of `lookupUIDGID`, `okUid`/`okGid` the outcomes of the
`Setreuid`/`Setregid` calls and `okRestore` the outcome of the restoring
`Setreuid` attempted when `Setregid` fails.  The Go function reads the current
effective ids as the root identity to preserve (`rootUid := os.Geteuid()`). -/
def dropPrivileges (appUid appGid : Nat) (lookupOk okUid okGid okRestore : Bool)
    (c : Creds) : Creds × CredResult :=
  if !lookupOk then (c, .lookupErr)
  else
    let rootUid := c.euid
    let rootGid := c.egid
    if !okUid then (c, .setuidErr)
    else
      let c1 := setreuid rootUid appUid c
      if !okGid then
        if !okRestore then (c1, .setgidRestoreErr)
        else (setreuid appUid rootUid c1, .setgidErr)
      else (setregid rootGid appGid c1, .ok)

/-- `elevatePrivileges()` from `src/privilege.go:58-81`.  The root identity is
read from the real ids (`rootUid := os.Getuid()`), the previous effective ids
are remembered for the restore path. -/
def elevatePrivileges (okUid okGid okRestore : Bool) (c : Creds) :
    Creds × CredResult :=
  let rootUid := c.ruid
  let rootGid := c.rgid
  let prevEffectiveUid := c.euid
  let prevEffectiveGid := c.egid
  if !okUid then (c, .setuidErr)
  else
    let c1 := setreuid prevEffectiveUid rootUid c
    if !okGid then
      if !okRestore then (c1, .setgidRestoreErr)
      else (setreuid rootUid prevEffectiveUid c1, .setgidErr)
    else (setregid prevEffectiveGid rootGid c1, .ok)

/-! ## Monitor tasks (`Daemon.monitorService`, `src/main_test.go:654-726`) -/

/-- slog level constants (`log/slog`): Debug, Info, Warn, Error. -/
def slogLevelDebug : Int := -4

/-- slog Info level. -/
def slogLevelInfo : Int := 0

/-- slog Warn level. -/
def slogLevelWarn : Int := 4

/-- slog Error level. -/
def slogLevelError : Int := 8

/-- What one monitor pass does after observing the child's exit.
`enqueued` — a restart request was placed on `restartChan`;
`gaveUp` / `gaveUpLevel` — the "exceeded max restarts, giving up" branch was
taken and the slog level it logs at; `newRestarts` — the value of the shared
`status.Restarts` counter after the pass. -/
structure MonitorResult where
  enqueued : Bool
  gaveUp : Bool
  gaveUpLevel : Option Int
  newRestarts : Nat
deriving DecidableEq, Repr

/-- One pass of `Daemon.monitorService` (`src/main_test.go:654-726`), from the
return of `cmd.Wait()` onwards.  `exitErr` is whether `cmd.Wait()` returned a
non-nil error (non-zero exit status); `statusExists` is whether
`d.getServiceStatus(svc.Name)` finds a record; `restarts` is the current value
of that record's `Restarts` field; `ctxDone` is whether the daemon's shutdown
context fires at the enqueue `select`.  Note the Go code increments
`status.Restarts` before the `select`, so the counter advances even when the
enqueue is dropped by shutdown. -/
def monitorStep (svc : Service) (exitErr statusExists : Bool)
    (restarts : Nat) (ctxDone : Bool) : MonitorResult :=
  if svc.oneshot then
    if svc.interval > 0 then
      { enqueued := !ctxDone, gaveUp := false, gaveUpLevel := none,
        newRestarts := restarts }
    else
      { enqueued := false, gaveUp := false, gaveUpLevel := none,
        newRestarts := restarts }
  else
    let shouldRestart :=
      if exitErr then
        svc.restart = .always ∨ svc.restart = .onFailure
      else
        svc.restart = .always
    if shouldRestart then
      if statusExists then
        if svc.maxRestarts > 0 ∧ restarts ≥ svc.maxRestarts then
          { enqueued := false, gaveUp := true, gaveUpLevel := some slogLevelInfo,
            newRestarts := restarts }
        else
          { enqueued := !ctxDone, gaveUp := false, gaveUpLevel := none,
            newRestarts := restarts + 1 }
      else
        { enqueued := !ctxDone, gaveUp := false, gaveUpLevel := none,
          newRestarts := restarts }
    else
      { enqueued := false, gaveUp := false, gaveUpLevel := none,
        newRestarts := restarts }

/-- Number of restarts enqueued over a run of the supervised service: each
element of `exits` is one child exit (`true` = exited with error) observed by
the monitor instance current at that time.  The `status.Restarts` counter is
threaded from one monitor instance to the next, exactly as the shared
`*ServiceStatus` record persists across restarts (`serviceManager` leaves
`Restarts` untouched when re-spawning).  A run ends as soon as a pass does not
enqueue, since without a restart there is no further exit to observe. -/
def monitorRun (svc : Service) : List Bool → Nat → Nat
  | [], _ => 0
  | e :: es, r =>
    let m := monitorStep svc e true r false
    if m.enqueued then monitorRun svc es m.newRestarts + 1 else 0

/-! ## Daemon state (`Daemon`, `ServiceStatus` in `src/main_test.go`) -/

/-- `type ServiceStatus struct` (`src/main_test.go:372-378`); times in ticks. -/
structure StatusRec where
  name : String
  running : Bool
  pid : Nat
  startTime : Nat
  restarts : Nat
deriving DecidableEq, Repr

/-- Go map lookup on an association list. -/
def lookupA {α : Type} (l : List (String × α)) (k : String) : Option α :=
  (l.find? (fun p => p.1 == k)).map Prod.snd

/-- Go map store `m[k] = v` (update or insert; Go map iteration order is
unspecified, so the binding is placed in front and stale bindings dropped). -/
def setA {α : Type} (l : List (String × α)) (k : String) (v : α) :
    List (String × α) :=
  (k, v) :: l.filter (fun p => !(p.1 == k))

/-- The daemon's shared tables (`Daemon` struct): `serviceCmds` maps a name to
the pid of the tracked `*exec.Cmd`; `serviceStatus` maps a name to a pointer
(`*ServiceStatus`), modelled as an index into an explicit `heap` of allocated
status records so that pointer sharing is represented. -/
structure DaemonState where
  cmds : List (String × Nat)
  heap : List StatusRec
  statusPtrs : List (String × Nat)
deriving DecidableEq, Repr

/-- `Daemon.getServiceStatus` (`src/main_test.go:502-507`): returns the stored
`*ServiceStatus` pointer itself. -/
def getServiceStatus (d : DaemonState) (name : String) : Option Nat :=
  lookupA d.statusPtrs name

/-- `Daemon.getAllServiceStatus` (`src/main_test.go:529-538`): copies the map
entry by entry into a fresh map; the copied values are the pointers. -/
def getAllServiceStatus (d : DaemonState) : List (String × Nat) :=
  d.statusPtrs

/-- What a holder of a previously returned response sees when reading the
per-service records through the response's pointers at a later time. -/
def viewResponse (d : DaemonState) (resp : List (String × Nat)) :
    List (String × Option StatusRec) :=
  resp.map (fun p => (p.1, d.heap[p.2]?))

/-- `d.setServiceStatus(name, &ServiceStatus{...})`: allocates a fresh record
and stores the new pointer. -/
def setServiceStatusNew (d : DaemonState) (name : String) (st : StatusRec) :
    DaemonState :=
  { d with heap := d.heap ++ [st],
           statusPtrs := setA d.statusPtrs name d.heap.length }

/-- An in-place mutation of the record behind `name`'s status pointer, e.g.
`status.Running = false` in `monitorService` or the `status.Running = true;
status.PID = ...; status.StartTime = ...` block in `serviceManager`. -/
def mutateStatus (d : DaemonState) (name : String)
    (f : StatusRec → StatusRec) : DaemonState :=
  match lookupA d.statusPtrs name with
  | none => d
  | some p =>
    match d.heap[p]? with
    | none => d
    | some st => { d with heap := d.heap.set p (f st) }

/-- `Daemon.startService` (`src/main_test.go:576-651`).  The Boolean flags are
the outcomes of `lookupUIDGID`, `cmd.StdoutPipe`, `cmd.StderrPipe` and
`cmd.Start`; each failure returns the error before any table is touched.  Only
after a successful `cmd.Start` are the command registered, the capture started
and the `ServiceStatus` allocated (running, new pid, start time, 0 restarts).
The second component is `true` when the start succeeded. -/
def startService (d : DaemonState) (svc : Service) (newPid now : Nat)
    (lookupOk pipeOutOk pipeErrOk startOk : Bool) : DaemonState × Bool :=
  if !lookupOk then (d, false)
  else if !pipeOutOk then (d, false)
  else if !pipeErrOk then (d, false)
  else if !startOk then (d, false)
  else
    let d1 := { d with cmds := setA d.cmds svc.name newPid }
    (setServiceStatusNew d1 svc.name ⟨svc.name, true, newPid, now, 0⟩, true)

/-- Response of the `status` command of `handleIPCRequest`
(`src/main_test.go:196-214`): the found record's pointer, or
`Success=false` with a not-found message. -/
inductive StatusResponse where
  | ok (ptr : Nat)
  | notFound
deriving DecidableEq, Repr

/-- The `status <name>` branch of `handleIPCRequest`. -/
def handleStatusRequest (d : DaemonState) (name : String) : StatusResponse :=
  match getServiceStatus d name with
  | some p => .ok p
  | none => .notFound

/-! ## Restart worker (`Daemon.serviceManager`, `src/main_test.go:729-840`) -/

/-- Externally visible actions of the restart worker and the signal path. -/
inductive Event where
  | elevated
  | elevateFailed
  | lookupFailed
  | pipeFailed
  | spawned (pid : Nat)
  | spawnFailed
  | cmdTableSet (name : String) (pid : Nat)
  | statusSet (name : String) (pid : Nat)
  | dropped
  | dropFailed
  | signaled (pid : Nat)
  | waited (pid : Nat)
  | killed (pid : Nat)
deriving DecidableEq, Repr

/-- The `dropPrivileges` call on an error or completion path: its failure is
only logged. -/
def dropEvent (ok : Bool) : List Event :=
  [if ok then .dropped else .dropFailed]

/-- Result of one `serviceManager` loop iteration: the daemon state after the
iteration, the actions performed, whether the daemon process exits, and
whether a monitor goroutine was launched for the new child. -/
structure ManagerStep where
  state : DaemonState
  trace : List Event
  exits : Bool
  monitorStarted : Bool
deriving DecidableEq, Repr

/-- One iteration of `Daemon.serviceManager` (`src/main_test.go:729-840`) for
a request `svc` received on `restartChan`.  Every failure path in the Go code
logs and executes `continue` — none exits the daemon or leaves the loop —
hence `exits := false` throughout.  A `dropPrivileges` failure after the
successful `cmd.Start` (`src/main_test.go:831-834`) also logs and `continue`s,
skipping only the `go d.monitorService(...)` launch.  The status update leaves
the `Restarts` counter untouched when the record already exists. -/
def serviceManagerStep (d : DaemonState) (svc : Service) (newPid now : Nat)
    (elevOk lookupOk pipeOutOk pipeErrOk startOk dropOk : Bool) : ManagerStep :=
  if !elevOk then
    { state := d, trace := [.elevateFailed], exits := false,
      monitorStarted := false }
  else if !lookupOk then
    { state := d, trace := [.elevated, .lookupFailed] ++ dropEvent dropOk,
      exits := false, monitorStarted := false }
  else if !pipeOutOk then
    { state := d, trace := [.elevated, .pipeFailed] ++ dropEvent dropOk,
      exits := false, monitorStarted := false }
  else if !pipeErrOk then
    { state := d, trace := [.elevated, .pipeFailed] ++ dropEvent dropOk,
      exits := false, monitorStarted := false }
  else if !startOk then
    { state := d, trace := [.elevated, .spawnFailed] ++ dropEvent dropOk,
      exits := false, monitorStarted := false }
  else
    let d1 := { d with cmds := setA d.cmds svc.name newPid }
    let d2 :=
      if (lookupA d1.statusPtrs svc.name).isSome then
        mutateStatus d1 svc.name
          (fun st => { st with running := true, pid := newPid, startTime := now })
      else
        setServiceStatusNew d1 svc.name ⟨svc.name, true, newPid, now, 0⟩
    { state := d2,
      trace := [.elevated, .spawned newPid, .cmdTableSet svc.name newPid,
        .statusSet svc.name newPid] ++ dropEvent dropOk,
      exits := false,
      monitorStarted := dropOk }

/-- The fully successful restart path: every external call succeeds. -/
def restartStepAll (d : DaemonState) (svc : Service) (newPid now : Nat) :
    ManagerStep :=
  serviceManagerStep d svc newPid now true true true true true true

/-- Outcome of the `signal` branch of `handleIPCRequest`
(`src/main_test.go:238-298`): the response's success flag, whether the daemon
exits, and the actions performed. -/
structure SignalResult where
  success : Bool
  exits : Bool
  trace : List Event
deriving DecidableEq, Repr

/-- The `signal <name> <sig>` branch of `handleIPCRequest`.  `cmdPid` is the
pid of the tracked command when one exists, `validSignal` whether the signal
token is recognized, `signalOk` whether `cmd.Process.Signal` succeeded and
`dropOk` whether the `dropPrivileges` after the signal succeeded — the latter
failure is only logged (`src/main_test.go:276-278`) and the handler still
returns its response and keeps serving. -/
def handleSignalRequest (cmdPid : Option Nat)
    (validSignal elevOk signalOk dropOk : Bool) : SignalResult :=
  match cmdPid with
  | none => { success := false, exits := false, trace := [] }
  | some pid =>
    if !validSignal then { success := false, exits := false, trace := [] }
    else if !elevOk then
      { success := false, exits := false, trace := [.elevateFailed] }
    else
      { success := signalOk, exits := false,
        trace := [.elevated, .signaled pid] ++ dropEvent dropOk }

end Pei

namespace Pei

/-- C1: Starting from the elevated state (effective uid/gid root), a successful
`dropPrivileges` leaves the effective uid equal to the application uid while
root is retained in the real slot of the real/saved pair, and a subsequent
successful `elevatePrivileges` restores the effective uid and gid to root, so
drop followed by elevate round-trips back to effective root. -/
theorem drop_elevate_roundtrip (c : Creds) (appUid appGid : Nat)
    (heu : c.euid = 0) (heg : c.egid = 0) :
    (dropPrivileges appUid appGid true true true true c).2 = .ok ∧
    (dropPrivileges appUid appGid true true true true c).1.euid = appUid ∧
    (dropPrivileges appUid appGid true true true true c).1.ruid = 0 ∧
    (dropPrivileges appUid appGid true true true true c).1.egid = appGid ∧
    (dropPrivileges appUid appGid true true true true c).1.rgid = 0 ∧
    (elevatePrivileges true true true
      (dropPrivileges appUid appGid true true true true c).1).2 = .ok ∧
    (elevatePrivileges true true true
      (dropPrivileges appUid appGid true true true true c).1).1.euid = 0 ∧
    (elevatePrivileges true true true
      (dropPrivileges appUid appGid true true true true c).1).1.egid = 0 := by
  simp [dropPrivileges, elevatePrivileges, setreuid, setregid, heu, heg]

/-- Witness for C1: the concrete launch state of the setuid binary
(real uid/gid 1000, effective and saved root) dropping to app identity
1000:1000 and elevating back. -/
theorem drop_elevate_roundtrip_witness :
    (⟨1000, 0, 0, 1000, 0, 0⟩ : Creds).euid = 0 ∧
    (elevatePrivileges true true true
      (dropPrivileges 1000 1000 true true true true
        ⟨1000, 0, 0, 1000, 0, 0⟩).1).1.euid = 0 := by
  refine ⟨rfl, ?_⟩
  exact (drop_elevate_roundtrip ⟨1000, 0, 0, 1000, 0, 0⟩ 1000 1000 rfl rfl).2.2.2.2.2.2.2

/-- If a non-oneshot monitor pass enqueued a restart, the max-restarts limit
was not reached and the shared restart counter was incremented. -/
theorem monitorStep_enqueued_inv (svc : Service) (hos : svc.oneshot = false)
    (e : Bool) (r : Nat)
    (h : (monitorStep svc e true r false).enqueued = true) :
    ¬(svc.maxRestarts > 0 ∧ r ≥ svc.maxRestarts) ∧
    (monitorStep svc e true r false).newRestarts = r + 1 := by
  by_cases hsr : (if e = true then
      svc.restart = .always ∨ svc.restart = .onFailure
    else svc.restart = .always)
  · by_cases hlim : svc.maxRestarts > 0 ∧ r ≥ svc.maxRestarts
    · exfalso
      simp [monitorStep, hos, hsr, hlim] at h
    · exact ⟨hlim, by simp [monitorStep, hos, hsr, hlim]⟩
  · exfalso
    simp [monitorStep, hos, hsr] at h

/-- The restart counter bounds the number of enqueues still possible:
starting from counter value `r`, at most `maxRestarts - r` further restarts
are enqueued. -/
theorem monitorRun_le (svc : Service) (hos : svc.oneshot = false)
    (hN : 0 < svc.maxRestarts) :
    ∀ (exits : List Bool) (r : Nat),
      monitorRun svc exits r ≤ svc.maxRestarts - r := by
  intro exits
  induction exits with
  | nil => intro r; simp [monitorRun]
  | cons e es ih =>
    intro r
    simp only [monitorRun]
    by_cases h : (monitorStep svc e true r false).enqueued = true
    · obtain ⟨hlim, hinc⟩ := monitorStep_enqueued_inv svc hos e r h
      have hr : r < svc.maxRestarts := by
        by_contra hge
        exact hlim ⟨hN, Nat.le_of_not_lt hge⟩
      rw [if_pos h, hinc]
      have := ih (r + 1)
      omega
    · rw [if_neg h]
      exact Nat.zero_le _

/-- A crash-looping `restart: always` service with `max_restarts: 0` enqueues
one restart per observed exit, forever. -/
theorem monitorRun_unbounded (svc : Service) (hos : svc.oneshot = false)
    (hN : svc.maxRestarts = 0) (hpol : svc.restart = .always) :
    ∀ (k r : Nat), monitorRun svc (List.replicate k true) r = k := by
  intro k
  induction k with
  | zero => intro r; simp [monitorRun]
  | succ n ih =>
    intro r
    simp only [List.replicate, monitorRun, monitorStep, hos, hN, hpol]
    simp [ih (r + 1)]

end Pei

namespace Pei

/-- C3: For a non-oneshot service (status record present, shutdown not in
progress, max-restart limit not reached) the monitor enqueues a restart
exactly according to the policy — `always` on any exit, `on-failure` only on a
non-zero exit, `never` never — and for a oneshot service a restart is enqueued
(after the interval sleep) precisely when `interval > 0`. -/
theorem monitor_restart_policy (svc : Service) (exitErr : Bool) (r : Nat)
    (hlim : ¬(svc.maxRestarts > 0 ∧ r ≥ svc.maxRestarts)) :
    (svc.oneshot = false →
      (monitorStep svc exitErr true r false).enqueued =
        (match svc.restart with
          | .always => true
          | .onFailure => exitErr
          | .never => false)) ∧
    (svc.oneshot = true →
      (monitorStep svc exitErr true r false).enqueued =
        decide (svc.interval > 0)) := by
  constructor
  · intro hos
    cases hpol : svc.restart <;> cases exitErr <;>
      simp [monitorStep, hos, hlim, hpol]
  · intro hos
    by_cases hi : svc.interval > 0 <;> simp [monitorStep, hos, hi]

/-- Witness for C3: an `on-failure` service under its limit enqueues on a
failed exit, and a oneshot service with a 2-second interval reschedules. -/
theorem monitor_restart_policy_witness :
    (¬((5 : Nat) > 0 ∧ (2 : Nat) ≥ 5) ∧
      (monitorStep ⟨"counter", ["sh"], "worker", "worker", .onFailure, 5, 2, 0,
        false, false⟩ true true 2 false).enqueued = true) ∧
    (monitorStep ⟨"tick", ["sh"], "monitor", "monitor", .always, 0, 0, 2,
      true, false⟩ false true 0 false).enqueued = true := by
  constructor
  · refine ⟨by decide, ?_⟩
    have h := (monitor_restart_policy
      ⟨"counter", ["sh"], "worker", "worker", .onFailure, 5, 2, 0,
        false, false⟩ true 2 (by decide)).1 rfl
    simpa using h
  · have h := (monitor_restart_policy
      ⟨"tick", ["sh"], "monitor", "monitor", .always, 0, 0, 2,
        true, false⟩ false 0 (by decide)).2 rfl
    simpa using h

/-- C4: With `max_restarts = N > 0` at most `N` restarts are enqueued after
the initial start (the counter persists across monitor instances because it is
threaded through the shared status record); once the counter has reached `N`
the pass gives up, logging at Info, and enqueues nothing; with
`max_restarts = 0` the restart count is unbounded: a crash-looping `always`
service is re-enqueued at every one of its `k` exits, for every `k`. -/
theorem max_restarts_policy (svc : Service) (exits : List Bool)
    (k r : Nat) (e : Bool) (hos : svc.oneshot = false) :
    (0 < svc.maxRestarts → monitorRun svc exits 0 ≤ svc.maxRestarts) ∧
    (0 < svc.maxRestarts → svc.maxRestarts ≤ r →
      (if e then svc.restart = .always ∨ svc.restart = .onFailure
       else svc.restart = .always) →
      (monitorStep svc e true r false).gaveUp = true ∧
      (monitorStep svc e true r false).gaveUpLevel = some slogLevelInfo ∧
      (monitorStep svc e true r false).enqueued = false) ∧
    (svc.maxRestarts = 0 → svc.restart = .always →
      monitorRun svc (List.replicate k true) 0 = k) := by
  refine ⟨?_, ?_, ?_⟩
  · intro hN
    simpa using monitorRun_le svc hos hN exits 0
  · intro hN hr hpol
    have hsr : (if e = true then svc.restart = .always ∨ svc.restart = .onFailure
        else svc.restart = .always) := by
      cases e <;> simpa using hpol
    cases e <;> simp_all [monitorStep, hos]
  · intro hN hpol
    exact monitorRun_unbounded svc hos hN hpol k 0

/-- Witness for C4: the example `crasher` service (`restart: on-failure`,
`max_restarts: 3`) enqueues at most 3 restarts over five failing exits, gives
up at counter 3, and the `max_restarts: 0` always-service restarts 4 times in
4 exits. -/
theorem max_restarts_policy_witness :
    monitorRun ⟨"crasher", ["sh"], "nobody", "nobody", .onFailure, 3, 1, 0,
      false, false⟩ [true, true, true, true, true] 0 ≤ 3 ∧
    (monitorStep ⟨"crasher", ["sh"], "nobody", "nobody", .onFailure, 3, 1, 0,
      false, false⟩ true true 3 false).gaveUp = true ∧
    monitorRun ⟨"loop", ["sh"], "nobody", "nobody", .always, 0, 1, 0,
      false, false⟩ (List.replicate 4 true) 0 = 4 := by
  have h := max_restarts_policy
    ⟨"crasher", ["sh"], "nobody", "nobody", .onFailure, 3, 1, 0, false, false⟩
    [true, true, true, true, true] 4 3 true rfl
  have h0 := max_restarts_policy
    ⟨"loop", ["sh"], "nobody", "nobody", .always, 0, 1, 0, false, false⟩
    [] 4 0 true rfl
  refine ⟨h.1 (by decide), ?_, h0.2.2 rfl rfl⟩
  exact (h.2.1 (by decide) (by decide) (by simp)).1

/-- Looking up a key just stored finds the stored value. -/
theorem lookupA_setA_self {α : Type} (l : List (String × α)) (k : String)
    (v : α) : lookupA (setA l k v) k = some v := by
  simp [lookupA, setA, List.find?]

/-- Updating an in-bounds heap cell is observable at that cell. -/
theorem getElem?_set_of_some {α : Type} (l : List α) (i : Nat) (a b : α)
    (h : l[i]? = some a) : (l.set i b)[i]? = some b := by
  induction l generalizing i with
  | nil => simp at h
  | cons x t ih =>
    cases i with
    | zero => simp
    | succ n => simpa using ih n (by simpa using h)

/-- `serviceManager` never exits the daemon: every branch of the iteration
only logs on failure and continues the loop. -/
theorem serviceManagerStep_exits_false (d : DaemonState) (svc : Service)
    (newPid now : Nat) (elevOk lookupOk pipeOutOk pipeErrOk startOk dropOk : Bool) :
    (serviceManagerStep d svc newPid now elevOk lookupOk pipeOutOk pipeErrOk
      startOk dropOk).exits = false := by
  cases elevOk <;> cases lookupOk <;> cases pipeOutOk <;> cases pipeErrOk <;>
    cases startOk <;> simp [serviceManagerStep]

end Pei

namespace Pei

/-- C2 counterexample: a concrete `serviceManager` iteration in which the
elevation succeeded and the subsequent `dropPrivileges` failed, yet the
daemon does not exit — the loop merely continues (and skips launching the
monitor goroutine) — refuting "a failed drop after a successful elevation is
always fatal". -/
theorem drop_failure_fatal_cex :
    (serviceManagerStep ⟨[("echo", 41)], [⟨"echo", true, 41, 0, 0⟩],
        [("echo", 0)]⟩
      ⟨"echo", ["sh"], "appuser", "appuser", .always, 3, 5, 0, false, false⟩
      42 7 true true true true true false).trace =
      [.elevated, .spawned 42, .cmdTableSet "echo" 42, .statusSet "echo" 42,
        .dropFailed] ∧
    (serviceManagerStep ⟨[("echo", 41)], [⟨"echo", true, 41, 0, 0⟩],
        [("echo", 0)]⟩
      ⟨"echo", ["sh"], "appuser", "appuser", .always, 3, 5, 0, false, false⟩
      42 7 true true true true true false).exits = false := by
  constructor <;> rfl

/-- C2 amended: when elevation has succeeded and the subsequent privilege
drop fails, the supervisor logs the failure and continues operating still
elevated — `serviceManager` proceeds with its loop (`exits = false`, and on
the post-start path the new monitor launch is skipped), and the control
channel's signal handler likewise returns its response and keeps serving. -/
theorem drop_failure_continues (d : DaemonState) (svc : Service)
    (newPid now : Nat) (lookupOk pipeOutOk pipeErrOk startOk : Bool) :
    (serviceManagerStep d svc newPid now true lookupOk pipeOutOk pipeErrOk
      startOk false).exits = false ∧
    Event.dropFailed ∈ (serviceManagerStep d svc newPid now true lookupOk
      pipeOutOk pipeErrOk startOk false).trace ∧
    (serviceManagerStep d svc newPid now true lookupOk pipeOutOk pipeErrOk
      startOk false).monitorStarted = false ∧
    (∀ (pid : Nat) (signalOk : Bool),
      (handleSignalRequest (some pid) true true signalOk false).exits = false ∧
      (handleSignalRequest (some pid) true true signalOk false).success =
        signalOk) := by
  refine ⟨serviceManagerStep_exits_false _ _ _ _ _ _ _ _ _ _, ?_, ?_, ?_⟩
  · cases lookupOk <;> cases pipeOutOk <;> cases pipeErrOk <;> cases startOk <;>
      simp [serviceManagerStep, dropEvent]
  · cases lookupOk <;> cases pipeOutOk <;> cases pipeErrOk <;> cases startOk <;>
      simp [serviceManagerStep]
  · intro pid signalOk
    cases signalOk <;> simp [handleSignalRequest, dropEvent]

/-- C8: an accepted restart request for a service whose tracked process is
running spawns the new process without any signal, wait or kill on the old
one: no such action appears in the iteration's trace, while the command table
and the status record's pid are overwritten with the new pid. -/
theorem restart_overwrites_running (d : DaemonState) (svc : Service)
    (oldPid newPid now p : Nat) (st : StatusRec)
    (hold : lookupA d.cmds svc.name = some oldPid)
    (hrun : st.running = true)
    (hp : lookupA d.statusPtrs svc.name = some p)
    (hst : d.heap[p]? = some st) :
    lookupA (restartStepAll d svc newPid now).state.cmds svc.name =
      some newPid ∧
    getServiceStatus (restartStepAll d svc newPid now).state svc.name =
      some p ∧
    (restartStepAll d svc newPid now).state.heap[p]? =
      some { st with running := true, pid := newPid, startTime := now } ∧
    (∀ q, Event.signaled q ∉ (restartStepAll d svc newPid now).trace) ∧
    (∀ q, Event.waited q ∉ (restartStepAll d svc newPid now).trace) ∧
    (∀ q, Event.killed q ∉ (restartStepAll d svc newPid now).trace) := by
  have hstep : restartStepAll d svc newPid now =
      { state := mutateStatus { d with cmds := setA d.cmds svc.name newPid }
          svc.name
          (fun st => { st with running := true, pid := newPid, startTime := now }),
        trace := [.elevated, .spawned newPid, .cmdTableSet svc.name newPid,
          .statusSet svc.name newPid, .dropped],
        exits := false, monitorStarted := true } := by
    simp [restartStepAll, serviceManagerStep, dropEvent, hp]
  rw [hstep]
  refine ⟨?_, ?_, ?_, ?_, ?_, ?_⟩
  · simp [mutateStatus, hp]
    split <;> simp [lookupA_setA_self]
  · simp [getServiceStatus, mutateStatus, hp, hst]
  · simp [mutateStatus, hp, hst, getElem?_set_of_some _ _ _ _ hst]
  · intro q; simp
  · intro q; simp
  · intro q; simp

/-- Witness for C8: restarting the running `echo` service (old pid 41) with
new pid 42. -/
theorem restart_overwrites_running_witness :
    lookupA (restartStepAll ⟨[("echo", 41)], [⟨"echo", true, 41, 3, 1⟩],
        [("echo", 0)]⟩
      ⟨"echo", ["sh"], "appuser", "appuser", .always, 3, 5, 0, false, false⟩
      42 9).state.cmds "echo" = some 42 ∧
    (∀ q, Event.killed q ∉ (restartStepAll ⟨[("echo", 41)],
        [⟨"echo", true, 41, 3, 1⟩], [("echo", 0)]⟩
      ⟨"echo", ["sh"], "appuser", "appuser", .always, 3, 5, 0, false, false⟩
      42 9).trace) := by
  have h := restart_overwrites_running
    ⟨[("echo", 41)], [⟨"echo", true, 41, 3, 1⟩], [("echo", 0)]⟩
    ⟨"echo", ["sh"], "appuser", "appuser", .always, 3, 5, 0, false, false⟩
    41 42 9 0 ⟨"echo", true, 41, 3, 1⟩ rfl rfl rfl rfl
  exact ⟨h.1, h.2.2.2.2.2⟩

/-- C9: a service whose initial start fails at any step (user/group lookup,
stdout/stderr pipe creation, or `cmd.Start`) gets no status record:
`startService` leaves the daemon state untouched, so the service is absent
from `list` responses and a `status` query returns not-found. -/
theorem failed_start_no_status (d : DaemonState) (svc : Service)
    (newPid now : Nat) (lookupOk pipeOutOk pipeErrOk startOk : Bool)
    (habsent : lookupA d.statusPtrs svc.name = none)
    (hfail : lookupOk = false ∨ pipeOutOk = false ∨ pipeErrOk = false ∨
      startOk = false) :
    (startService d svc newPid now lookupOk pipeOutOk pipeErrOk startOk).1 =
      d ∧
    handleStatusRequest
      (startService d svc newPid now lookupOk pipeOutOk pipeErrOk startOk).1
      svc.name = .notFound ∧
    lookupA (getAllServiceStatus
      (startService d svc newPid now lookupOk pipeOutOk pipeErrOk startOk).1)
      svc.name = none ∧
    handleStatusRequest (startService d svc newPid now true true true true).1
      svc.name = .ok d.heap.length := by
  have hid : (startService d svc newPid now lookupOk pipeOutOk pipeErrOk
      startOk).1 = d := by
    rcases hfail with h | h | h | h <;> simp [startService, h]
  refine ⟨hid, ?_, ?_, ?_⟩
  · rw [hid]
    simp [handleStatusRequest, getServiceStatus, habsent]
  · rw [hid]
    simpa [getAllServiceStatus] using habsent
  · simp [startService, setServiceStatusNew, handleStatusRequest,
      getServiceStatus, lookupA_setA_self]

/-- Witness for C9: a `crasher` service whose `cmd.Start` fails on a fresh
daemon is reported as not found. -/
theorem failed_start_no_status_witness :
    handleStatusRequest (startService ⟨[], [], []⟩
        ⟨"crasher", ["nosuch"], "nobody", "nobody", .never, 0, 0, 0, false,
          false⟩ 42 1 true true true false).1 "crasher" = .notFound := by
  exact (failed_start_no_status ⟨[], [], []⟩
    ⟨"crasher", ["nosuch"], "nobody", "nobody", .never, 0, 0, 0, false, false⟩
    42 1 true true true false rfl (by simp)).2.1

/-- C6 counterexample: in a daemon with one service `echo`, mutating the
service's status record (as `monitorService` does with `status.Running =
false`) changes what a previously produced `list` response shows — the
response's per-service values alias the live records, refuting "snapshot
copies, not aliases". -/
theorem status_snapshot_cex :
    viewResponse
      (mutateStatus ⟨[("echo", 42)], [⟨"echo", true, 42, 3, 0⟩], [("echo", 0)]⟩
        "echo" (fun st => { st with running := false }))
      (getAllServiceStatus
        ⟨[("echo", 42)], [⟨"echo", true, 42, 3, 0⟩], [("echo", 0)]⟩) ≠
    viewResponse ⟨[("echo", 42)], [⟨"echo", true, 42, 3, 0⟩], [("echo", 0)]⟩
      (getAllServiceStatus
        ⟨[("echo", 42)], [⟨"echo", true, 42, 3, 0⟩], [("echo", 0)]⟩) := by
  decide

/-- C6 amended: `getAllServiceStatus` returns a fresh map of pointers (the
name-to-pointer association itself is a snapshot, unaffected by later record
mutation) but the per-service values are shared pointers into the live status
records, so a subsequent mutation of a record is visible through the
previously returned response. -/
theorem status_response_aliasing (d : DaemonState) (name : String) (p : Nat)
    (st : StatusRec) (f : StatusRec → StatusRec)
    (hp : lookupA (getAllServiceStatus d) name = some p)
    (hst : d.heap[p]? = some st) :
    getAllServiceStatus (mutateStatus d name f) = getAllServiceStatus d ∧
    (mutateStatus d name f).heap[p]? = some (f st) := by
  have hp' : lookupA d.statusPtrs name = some p := hp
  constructor
  · simp [getAllServiceStatus, mutateStatus, hp', hst]
  · simp [mutateStatus, hp', hst, getElem?_set_of_some _ _ _ _ hst]

/-- Witness for C6 amended: the `echo` record read through a prior response
shows the `running := false` mutation. -/
theorem status_response_aliasing_witness :
    (mutateStatus ⟨[("echo", 42)], [⟨"echo", true, 42, 3, 0⟩], [("echo", 0)]⟩
      "echo" (fun st => { st with running := false })).heap[0]? =
      some ⟨"echo", false, 42, 3, 0⟩ := by
  exact (status_response_aliasing
    ⟨[("echo", 42)], [⟨"echo", true, 42, 3, 0⟩], [("echo", 0)]⟩
    "echo" 0 ⟨"echo", true, 42, 3, 0⟩
    (fun st => { st with running := false }) rfl rfl).2

end Pei

namespace Pei

/-! ## Graceful shutdown (`Daemon.shutdownServices`, `src/main_test.go:896-964`) -/

/-- Externally visible actions of the shutdown path, in program order. -/
inductive ShutEvent where
  | removeSocket
  | stopCaptures
  | elevated
  | elevateFailed
  | sigterm (pid : Nat)
  | waitGraceful
  | kill (pid : Nat)
  | graceSleep
deriving DecidableEq, Repr

/-- `Daemon.shutdownServices` (`src/main_test.go:896-964`) as the sequence of
actions it performs.  `pids` are the tracked commands with a live process;
`elevOk` is the outcome of `elevatePrivileges` (on failure the function
returns at once); `timedOut` is whether the 30-second graceful wait expired.
The Go code removes the IPC socket as its very first action
(`os.Remove(SocketPath)` at `src/main_test.go:901`), and the force-kill loop
(over every tracked command) plus the 2-second sleep run only in the timeout
branch of the `select`. -/
def shutdownServices (pids : List Nat) (elevOk timedOut : Bool) :
    List ShutEvent :=
  [.removeSocket, .stopCaptures] ++
    (if !elevOk then [.elevateFailed]
     else [.elevated] ++ pids.map .sigterm ++ [.waitGraceful] ++
       (if timedOut then pids.map .kill ++ [.graceSleep] else []))

/-- If `e` does not occur in the left part of an append, any position holding
`e` lies in the right part. -/
theorem length_le_of_getElem?_not_left {α : Type} (l₁ l₂ : List α) (e : α)
    (i : Nat) (he : e ∉ l₁) (h : (l₁ ++ l₂)[i]? = some e) : l₁.length ≤ i := by
  by_contra hlt
  push_neg at hlt
  rw [List.getElem?_append_left hlt] at h
  exact he (List.mem_iff_getElem?.mpr ⟨i, h⟩)

/-- If `e` does not occur in the right part of an append, any position
holding `e` lies in the left part. -/
theorem lt_length_of_getElem?_not_right {α : Type} (l₁ l₂ : List α) (e : α)
    (i : Nat) (he : e ∉ l₂) (h : (l₁ ++ l₂)[i]? = some e) : i < l₁.length := by
  by_contra hge
  push_neg at hge
  rw [List.getElem?_append_right hge] at h
  exact he (List.mem_iff_getElem?.mpr ⟨i - l₁.length, h⟩)

end Pei

namespace Pei

/-- C5 counterexample: a concrete shutdown (one live child, pid 5, the
graceful wait timing out) in which the control socket is removed as the very
first action — before the TERM, the wait, and the KILL — refuting "the
control socket is removed only after the kill phase". -/
theorem shutdown_socket_first_cex :
    shutdownServices [5] true true =
      [.removeSocket, .stopCaptures, .elevated, .sigterm 5, .waitGraceful,
        .kill 5, .graceSleep] ∧
    List.indexOf ShutEvent.removeSocket (shutdownServices [5] true true) <
      List.indexOf (ShutEvent.kill 5) (shutdownServices [5] true true) := by
  constructor
  · rfl
  · decide

/-- C5 amended: on graceful shutdown the supervisor removes the control
socket file first, then stops the output captures, elevates, sends TERM to
every live child and waits up to 30 seconds; only if that wait times out does
it send KILL (to every tracked command) followed by the ~2-second grace
sleep.  Every TERM precedes every KILL. -/
theorem shutdown_order (pids : List Nat) (elevOk timedOut : Bool) :
    (shutdownServices pids elevOk timedOut).head? = some .removeSocket ∧
    (∀ p, ShutEvent.sigterm p ∈ shutdownServices pids elevOk timedOut ↔
      (elevOk = true ∧ p ∈ pids)) ∧
    (∀ p, ShutEvent.kill p ∈ shutdownServices pids elevOk timedOut ↔
      (elevOk = true ∧ timedOut = true ∧ p ∈ pids)) ∧
    (∀ (i j p q : Nat), (shutdownServices pids elevOk timedOut)[i]? =
        some (ShutEvent.sigterm p) →
      (shutdownServices pids elevOk timedOut)[j]? = some (ShutEvent.kill q) →
      i < j) := by
  refine ⟨?_, ?_, ?_, ?_⟩
  · cases elevOk <;> rfl
  · intro p
    cases elevOk <;> cases timedOut <;>
      simp [shutdownServices, List.mem_append, List.mem_map]
  · intro p
    cases elevOk <;> cases timedOut <;>
      simp [shutdownServices, List.mem_append, List.mem_map]
  · intro i j p q hi hj
    cases elevOk
    · exfalso
      have : ShutEvent.kill q ∈ shutdownServices pids false timedOut :=
        List.mem_iff_getElem?.mpr ⟨j, hj⟩
      simp [shutdownServices] at this
    · have hsplit : shutdownServices pids true timedOut =
          ([.removeSocket, .stopCaptures, .elevated] ++ pids.map .sigterm ++
            [.waitGraceful]) ++
          (if timedOut then pids.map .kill ++ [.graceSleep] else []) := by
        simp [shutdownServices]
      rw [hsplit] at hi hj
      have hkill : ShutEvent.kill q ∉
          ([ShutEvent.removeSocket, .stopCaptures, .elevated] ++
            pids.map .sigterm ++ [.waitGraceful]) := by
        simp
      have hterm : ShutEvent.sigterm p ∉
          (if timedOut then pids.map ShutEvent.kill ++ [.graceSleep]
           else []) := by
        cases timedOut <;> simp
      have h1 := lt_length_of_getElem?_not_right _ _ _ i hterm hi
      have h2 := length_le_of_getElem?_not_left _ _ _ j hkill hj
      omega

/-- Witness for C5 amended: in the concrete timed-out shutdown of pid 5, the
first action is the socket removal and the kill of pid 5 is present. -/
theorem shutdown_order_witness :
    (shutdownServices [5] true true).head? = some .removeSocket ∧
    ShutEvent.kill 5 ∈ shutdownServices [5] true true := by
  have h := shutdown_order [5] true true
  exact ⟨h.1, (h.2.2.1 5).mpr ⟨rfl, rfl, by simp⟩⟩

end Pei

namespace Pei

/-! ## Output capture (`src/service_logger.go`, `src/unnamed/part_004`) -/

/-- JSON values as far as the log classification inspects them. -/
inductive JValue where
  | jstr (s : String)
  | jnum (n : Int)
  | jbool (b : Bool)
  | jnull
deriving DecidableEq, Repr

/-- A captured output line: `raw` is the text after the `strings.TrimSpace` at
the top of `logServiceOutput`, together with the result of `json.Unmarshal` into a `map[string]interface \x7b\x7d` —
`some fields` exactly when the trimmed text is a brace-delimited JSON object
(the brace prefix/suffix test of `isStructuredJSON` and the `Unmarshal`
success are abstracted jointly into `parsed`). -/
structure OutLine where
  raw : String
  parsed : Option (List (String × JValue))
deriving DecidableEq, Repr

/-- Lookup of a key in a parsed JSON object. -/
def jLookup (obj : List (String × JValue)) (k : String) : Option JValue :=
  (obj.find? (fun p => p.1 == k)).map Prod.snd

/-- `commonLogFields` from `isStructuredJSON` (`src/service_logger.go:109`). -/
def commonLogFields : List String :=
  ["time", "timestamp", "level", "severity", "msg", "message", "@timestamp",
    "ts"]

/-- `isStructuredJSON` (`src/service_logger.go:95-120`): the line must parse
as a JSON object and contain at least 2 of the common structured-logging
fields. -/
def isStructuredJSON (l : OutLine) : Bool :=
  match l.parsed with
  | none => false
  | some obj =>
    decide (commonLogFields.countP (fun f => (jLookup obj f).isSome) ≥ 2)

/-- `parseLogLevel` (`src/service_logger.go:199-213`): maps an (uppercased)
level string to a `slog.Level`, defaulting to Info. -/
def parseLogLevel (levelStr : String) : Int :=
  if levelStr = "DEBUG" ∨ levelStr = "DBG" ∨ levelStr = "TRACE" then
    slogLevelDebug
  else if levelStr = "INFO" ∨ levelStr = "INFORMATION" then slogLevelInfo
  else if levelStr = "WARN" ∨ levelStr = "WARNING" then slogLevelWarn
  else if levelStr = "ERROR" ∨ levelStr = "ERR" ∨ levelStr = "FATAL" ∨
      levelStr = "CRITICAL" then slogLevelError
  else slogLevelInfo

/-- Go's `strings.ToUpper` on the ASCII level tokens: uppercase every
character. -/
def goToUpper (s : String) : String :=
  String.mk (s.data.map Char.toUpper)

/-- The level field names checked by `extractLogLevel`
(`src/service_logger.go:168`). -/
def levelFields : List String := ["level", "severity", "lvl"]

/-- `extractLogLevel` (`src/service_logger.go:165-180`): the first field among
`level`, `severity`, `lvl` whose value is a string is uppercased and parsed;
a present but non-string field falls through to the next name; if no field
has a string value the result is Info. -/
def extractLogLevel (serviceLog : List (String × JValue)) : Int :=
  match levelFields.findSome? (fun field =>
      match jLookup serviceLog field with
      | some (.jstr s) => some s
      | _ => none) with
  | some s => parseLogLevel (goToUpper s)
  | none => slogLevelInfo

/-- The message field names checked by `extractLogMessage`
(`src/service_logger.go:185`). -/
def messageFields : List String := ["msg", "message", "text", "content"]

/-- `extractLogMessage` (`src/service_logger.go:183-197`). -/
def extractLogMessage (serviceLog : List (String × JValue)) : String :=
  match messageFields.findSome? (fun field =>
      match jLookup serviceLog field with
      | some (.jstr s) => some s
      | _ => none) with
  | some s => s
  | none => "Service structured log"

/-- The `service_`-prefixed copies of the parsed keys added as attributes,
skipping the keys the code treats as already handled
(`src/service_logger.go:151-159`). -/
def prefixedAttrs (obj : List (String × JValue)) : List (String × JValue) :=
  (obj.filter (fun p =>
      !(p.1 == "level" || p.1 == "severity" || p.1 == "msg" ||
        p.1 == "message"))).map
    (fun p => ("service_" ++ p.1, p.2))

/-- A record handed to the log sink: either a plain "Service output" line or
a structured record at the service's own level. -/
inductive LogRecord where
  | plain (stream : String) (pid : Nat) (user : String) (output : String)
  | structured (level : Int) (message : String) (stream : String) (pid : Nat)
      (user : String) (extra : List (String × JValue))
deriving DecidableEq, Repr

/-- Whether a record is the structured kind. -/
def isStructuredRecord : LogRecord → Bool
  | .structured .. => true
  | .plain .. => false

/-- `logStructuredServiceOutput` (`src/service_logger.go:123-163`): re-parse;
on failure fall back to plain emission, otherwise emit a structured record at
the extracted level with the extracted message and the prefixed attributes. -/
def logStructuredServiceOutput (svc : Service) (l : OutLine) (stream : String)
    (pid : Nat) : LogRecord :=
  match l.parsed with
  | none => .plain stream pid svc.user l.raw
  | some obj =>
    .structured (extractLogLevel obj) (extractLogMessage obj) stream pid
      svc.user (prefixedAttrs obj)

/-- `logServiceOutput` of `src/service_logger.go:75-92`: after trimming and
dropping empty lines, classify by the `isStructuredJSON` heuristic — the
service descriptor's `json_logs` flag is not consulted. -/
def logServiceOutput (svc : Service) (l : OutLine) (stream : String)
    (pid : Nat) : Option LogRecord :=
  if l.raw = "" then none
  else if isStructuredJSON l then
    some (logStructuredServiceOutput svc l stream pid)
  else some (.plain stream pid svc.user l.raw)

/-- `logServiceOutput` of the `src/unnamed/part_004:74-91` variant: classify
by the service descriptor's `JSONLogs` flag; parse failures inside
`logStructuredServiceOutput` fall back to plain emission. -/
def logServiceOutputFlag (svc : Service) (l : OutLine) (stream : String)
    (pid : Nat) : Option LogRecord :=
  if l.raw = "" then none
  else if svc.jsonLogs then
    some (logStructuredServiceOutput svc l stream pid)
  else some (.plain stream pid svc.user l.raw)

end Pei

namespace Pei

/-- C7 counterexample: a service whose descriptor has `json_logs` false emits
the line `\x7b"level":"INFO","msg":"hi"\x7d`; the daemon's
`src/service_logger.go` capture nevertheless produces a structured record
(the line parses and carries 2 common log fields), refuting "in every other
case (flag false, or JSON parse failure) a plain record with the raw line as
message is emitted". -/
theorem json_flag_classification_cex :
    (⟨"counter", ["sh"], "worker", "worker", .always, 0, 0, 0, false,
        false⟩ : Service).jsonLogs = false ∧
    logServiceOutput
      ⟨"counter", ["sh"], "worker", "worker", .always, 0, 0, 0, false, false⟩
      ⟨"\x7b\x22level\x22:\x22INFO\x22,\x22msg\x22:\x22hi\x22\x7d",
        some [("level", .jstr "INFO"), ("msg", .jstr "hi")]⟩
      "stdout" 42 =
      some (.structured slogLevelInfo "hi" "stdout" 42 "worker" []) := by
  exact ⟨rfl, by decide⟩

/-- C7 amended: the capture in `src/service_logger.go` classifies a line as
structured exactly when it parses as a JSON object containing at least two of
the common log fields, independently of the service's `json_logs` flag; the
structured record carries the level and message extracted by
`extractLogLevel`/`extractLogMessage`; only the `src/unnamed/part_004`
variant consults the flag, emitting a structured record exactly when the flag
is set and the line parses as a JSON object. -/
theorem json_classification (svc : Service) (l : OutLine) (stream : String)
    (pid : Nat) (b : Bool) (hne : l.raw ≠ "") :
    ((logServiceOutput svc l stream pid).map isStructuredRecord =
      some (isStructuredJSON l)) ∧
    (logServiceOutput { svc with jsonLogs := b } l stream pid =
      logServiceOutput svc l stream pid) ∧
    (∀ obj, l.parsed = some obj → isStructuredJSON l = true →
      logServiceOutput svc l stream pid =
        some (.structured (extractLogLevel obj) (extractLogMessage obj)
          stream pid svc.user (prefixedAttrs obj))) ∧
    ((logServiceOutputFlag svc l stream pid).map isStructuredRecord =
      some (svc.jsonLogs && l.parsed.isSome)) := by
  refine ⟨?_, ?_, ?_, ?_⟩
  · by_cases hs : isStructuredJSON l = true
    · cases hobj : l.parsed with
      | none => simp [isStructuredJSON, hobj] at hs
      | some obj =>
        simp [logServiceOutput, hne, hs, logStructuredServiceOutput, hobj,
          isStructuredRecord]
    · simp [logServiceOutput, hne, hs, isStructuredRecord]
  · simp [logServiceOutput, logStructuredServiceOutput]
  · intro obj hobj hs
    simp [logServiceOutput, hne, hs, logStructuredServiceOutput, hobj]
  · cases hflag : svc.jsonLogs with
    | false => simp [logServiceOutputFlag, hne, hflag, isStructuredRecord]
    | true =>
      cases hobj : l.parsed with
      | none =>
        simp [logServiceOutputFlag, hne, hflag, logStructuredServiceOutput,
          hobj, isStructuredRecord]
      | some obj =>
        simp [logServiceOutputFlag, hne, hflag, logStructuredServiceOutput,
          hobj, isStructuredRecord]

/-- Witness for C7 amended: the `json_logger` example line with `level` and
`msg` fields is classified as structured by the heuristic, and the flag
variant classifies by the flag. -/
theorem json_classification_witness :
    (logServiceOutput
      ⟨"json_logger", ["sh"], "appuser", "appuser", .always, 3, 5, 0, false,
        true⟩
      ⟨"\x7b\x22level\x22:\x22WARN\x22,\x22msg\x22:\x22w\x22\x7d",
        some [("level", .jstr "WARN"), ("msg", .jstr "w")]⟩
      "stdout" 7).map isStructuredRecord = some true := by
  have h := (json_classification
    ⟨"json_logger", ["sh"], "appuser", "appuser", .always, 3, 5, 0, false,
      true⟩
    ⟨"\x7b\x22level\x22:\x22WARN\x22,\x22msg\x22:\x22w\x22\x7d",
      some [("level", .jstr "WARN"), ("msg", .jstr "w")]⟩
    "stdout" 7 true (by decide)).1
  rw [h]
  decide

end Pei

namespace Pei

/-- C10 counterexample: in the object with a numeric `level` and a string
`severity` of `"ERROR"`, the first present level key (`level`) is not a
string, yet `extractLogLevel` does not return Info — it falls through to
`severity` and returns Error. -/
theorem level_default_cex :
    extractLogLevel [("level", .jnum 5), ("severity", .jstr "ERROR")] =
      slogLevelError ∧
    slogLevelError ≠ slogLevelInfo := by
  exact ⟨by decide, by decide⟩

/-- C10 amended: `extractLogLevel` returns Info whenever no key among
`level`/`severity`/`lvl` has a string value (a present non-string value for
an earlier key falls through to the next key rather than forcing the
default); `parseLogLevel` maps every string to one of the four slog levels,
accepts the synonyms DBG/TRACE, INFORMATION, WARNING, ERR/FATAL/CRITICAL,
and maps every unrecognized string to Info. -/
theorem log_level_total (serviceLog : List (String × JValue)) (s : String)
    (hns : levelFields.all (fun f =>
      match jLookup serviceLog f with
      | some (.jstr _) => false
      | _ => true) = true) :
    extractLogLevel serviceLog = slogLevelInfo ∧
    (parseLogLevel s = slogLevelDebug ∨ parseLogLevel s = slogLevelInfo ∨
      parseLogLevel s = slogLevelWarn ∨ parseLogLevel s = slogLevelError) ∧
    parseLogLevel "DBG" = slogLevelDebug ∧
    parseLogLevel "TRACE" = slogLevelDebug ∧
    parseLogLevel "INFORMATION" = slogLevelInfo ∧
    parseLogLevel "WARNING" = slogLevelWarn ∧
    parseLogLevel "ERR" = slogLevelError ∧
    parseLogLevel "FATAL" = slogLevelError ∧
    parseLogLevel "CRITICAL" = slogLevelError ∧
    (s ∉ (["DEBUG", "DBG", "TRACE", "INFO", "INFORMATION", "WARN", "WARNING",
        "ERROR", "ERR", "FATAL", "CRITICAL"] : List String) →
      parseLogLevel s = slogLevelInfo) := by
  have hall : ∀ f ∈ levelFields,
      (match jLookup serviceLog f with
       | some (.jstr t) => some t
       | _ => none) = (none : Option String) := by
    intro f hf
    have h1 := List.all_eq_true.mp hns f hf
    cases hv : jLookup serviceLog f with
    | none => simp
    | some v =>
      cases v with
      | jstr t => rw [hv] at h1; simp at h1
      | jnum n => simp
      | jbool b => simp
      | jnull => simp
  refine ⟨?_, ?_, by decide, by decide, by decide, by decide, by decide,
    by decide, by decide, ?_⟩
  · have h1 := hall "level" (by simp [levelFields])
    have h2 := hall "severity" (by simp [levelFields])
    have h3 := hall "lvl" (by simp [levelFields])
    simp only [extractLogLevel, levelFields, List.findSome?_cons,
      List.findSome?_nil, h1, h2, h3]
  · unfold parseLogLevel
    split_ifs with h1 h2 h3 h4 <;> simp [slogLevelDebug, slogLevelInfo,
      slogLevelWarn, slogLevelError]
  · intro hmem
    unfold parseLogLevel
    split_ifs with h1 h2 h3 h4
    · rcases h1 with h | h | h <;> subst h <;> simp at hmem
    · rcases h2 with h | h <;> subst h <;> simp at hmem
    · rcases h3 with h | h <;> subst h <;> simp at hmem
    · rcases h4 with h | h | h | h <;> subst h <;> simp at hmem
    · rfl

/-- Witness for C10 amended: an object whose only level key is numeric maps
to Info, and the unrecognized token `banana` parses to Info. -/
theorem log_level_total_witness :
    extractLogLevel [("time", .jstr "t"), ("level", .jnum 3)] =
      slogLevelInfo ∧
    parseLogLevel "banana" = slogLevelInfo := by
  have h := log_level_total [("time", .jstr "t"), ("level", .jnum 3)]
    "banana" (by decide)
  exact ⟨h.1, h.2.2.2.2.2.2.2.2.2 (by decide)⟩

end Pei
